/-
Verification of the MidiControl repository's mixer-control core.

Shallow embedding of:
  * src/model/qu5_midi_service.py   (Qu5MIDIService: NRPN mute, scene recall,
    soft keys over a TCP socket, ping caching)
  * src/model/dm3_osc_service.py    (DM3OSCService: OSC mute/scene recall,
    connection monitor, ping caching)
  * src/model/midi_backend.py       (MidiBackend: message queue fed by the
    virtual-MIDI receive callback, drained by process_queued_messages)
  * src/controller/midi_controller.py (MidiController._handle_midi_message:
    channel routing of incoming Note On/Off messages)

Python integers are modelled as `Int`; time values as `Rat`.  Socket and
subprocess effects are modelled by explicit oracles (`Nat → Bool` giving the
outcome of the k-th I/O attempt).  `mido.Message` construction validates its
data bytes and raises `ValueError` out of range; this is modelled by
`Option`-returning smart constructors, with `none` propagating like the
exception the surrounding `try/except` catches.
-/
import Mathlib

namespace MidiControl

/-! ## MIDI wire messages (mido.Message after validation) -/

/-- A validated MIDI message as built by `mido.Message`.  All fields are the
in-range data bytes (channel 0-15, data 0-127). -/
inductive MidiMsg : Type
  | controlChange (channel control value : Nat)
  | programChange (channel program : Nat)
  | noteOn (channel note velocity : Nat)
  | noteOff (channel note velocity : Nat)
  deriving DecidableEq, Repr

/-- Embedding of `mido.Message('control_change', ...)`: raises `ValueError` (modelled as
`none`) unless channel ∈ 0..15 and data bytes ∈ 0..127. -/
def mkControlChange (channel control value : Int) : Option MidiMsg :=
  if 0 ≤ channel ∧ channel ≤ 15 ∧ 0 ≤ control ∧ control ≤ 127 ∧ 0 ≤ value ∧ value ≤ 127 then
    some (.controlChange channel.toNat control.toNat value.toNat)
  else none

/-- Embedding of `mido.Message('program_change', ...)` with validation. -/
def mkProgramChange (channel program : Int) : Option MidiMsg :=
  if 0 ≤ channel ∧ channel ≤ 15 ∧ 0 ≤ program ∧ program ≤ 127 then
    some (.programChange channel.toNat program.toNat)
  else none

/-- Embedding of `mido.Message('note_on', ...)` with validation. -/
def mkNoteOn (channel note velocity : Int) : Option MidiMsg :=
  if 0 ≤ channel ∧ channel ≤ 15 ∧ 0 ≤ note ∧ note ≤ 127 ∧ 0 ≤ velocity ∧ velocity ≤ 127 then
    some (.noteOn channel.toNat note.toNat velocity.toNat)
  else none

/-- Embedding of `mido.Message('note_off', ...)` with validation. -/
def mkNoteOff (channel note velocity : Int) : Option MidiMsg :=
  if 0 ≤ channel ∧ channel ≤ 15 ∧ 0 ≤ note ∧ note ≤ 127 ∧ 0 ≤ velocity ∧ velocity ≤ 127 then
    some (.noteOff channel.toNat note.toNat velocity.toNat)
  else none

/-! ## Qu5MIDIService (src/model/qu5_midi_service.py) -/

/-- Mutable state of a `Qu5MIDIService` instance relevant to sending.
`sent` is the wire log: the MIDI messages actually transmitted on the TCP
socket, in order.  `sendCount` counts socket `send` attempts, used to index
the socket oracle. -/
structure Qu5State : Type where
  qu5_midi_channel : Int      -- configured 1-based MIDI channel
  use_tcp_midi : Bool
  qu5_connected : Bool
  sent : List MidiMsg
  sendCount : Nat
  deriving DecidableEq, Repr

/-- Embedding of `Qu5MIDIService.send_midi_message` (qu5_midi_service.py:156-186).
`sock k` is the outcome of the k-th socket `send` (false = raises).
Returns the Python boolean result and the updated state:
not connected → warn, return False; TCP send ok → log, return True;
TCP send raises → error logged, `qu5_connected = False`, return False;
USB branch → log only, return True. -/
def send_midi_message (sock : Nat → Bool) (st : Qu5State) (msg : MidiMsg) :
    Bool × Qu5State :=
  if st.qu5_connected = false then (false, st)
  else if st.use_tcp_midi then
    if sock st.sendCount then
      (true, { st with sent := st.sent ++ [msg], sendCount := st.sendCount + 1 })
    else
      (false, { st with qu5_connected := false, sendCount := st.sendCount + 1 })
  else (true, st)

/-- The body of the `for msg_type, control, value, ch in sequence:` loop of
`send_nrpn_mute_sequence` (qu5_midi_service.py:267-273): build each CC
message, send it, and abort the remaining sequence on the first failed send.
A `ValueError` from the message constructor propagates to the enclosing
`except` (modelled: loop stops, state kept). -/
def sendSeq (sock : Nat → Bool) (midi_channel : Int) :
    Qu5State → List (Int × Int) → Qu5State
  | st, [] => st
  | st, (control, value) :: rest =>
    match mkControlChange midi_channel control value with
    | none => st
    | some msg =>
      let r := send_midi_message sock st msg
      if r.1 then sendSeq sock midi_channel r.2 rest else r.2

/-- Embedding of `Qu5MIDIService.send_nrpn_mute_sequence` (qu5_midi_service.py:244-279).
Emits CC99=0, CC98=channel_num-1, CC6=0, CC38=mute_value on the 0-based
MIDI channel derived from the configured 1-based one. -/
def send_nrpn_mute_sequence (sock : Nat → Bool) (st : Qu5State)
    (channel_num mute_value : Int) (mixer_midi_channel : Option Int) : Qu5State :=
  let midi_channel := (mixer_midi_channel.getD st.qu5_midi_channel) - 1
  sendSeq sock midi_channel st
    [(99, 0), (98, channel_num - 1), (6, 0), (38, mute_value)]

/-- Embedding of `Qu5MIDIService.handle_mute` (qu5_midi_service.py:188-206). -/
def Qu5.handle_mute (sock : Nat → Bool) (st : Qu5State)
    (note velocity _channel : Int) (mixer_midi_channel : Option Int) : Qu5State :=
  if st.qu5_connected = false then st
  else
    let midi_channel := mixer_midi_channel.getD st.qu5_midi_channel
    if note < 0 ∨ note > 15 then st
    else
      let channel_num := note + 1
      let mute_on_off : Int := if velocity ≥ 1 then 1 else 0
      send_nrpn_mute_sequence sock st channel_num mute_on_off (some midi_channel)

/-- Embedding of `Qu5MIDIService.recall_scene_by_number` (qu5_midi_service.py:310-328):
a single Program Change with program `max 0 (scene_number - 1)`. -/
def recall_scene_by_number (sock : Nat → Bool) (st : Qu5State)
    (scene_number : Int) (mixer_midi_channel : Option Int) : Qu5State :=
  let midi_channel := (mixer_midi_channel.getD st.qu5_midi_channel) - 1
  match mkProgramChange midi_channel (max 0 (scene_number - 1)) with
  | none => st
  | some msg => (send_midi_message sock st msg).2

/-- Embedding of `Qu5MIDIService.handle_scene` (qu5_midi_service.py:208-224). -/
def Qu5.handle_scene (sock : Nat → Bool) (st : Qu5State)
    (note _channel : Int) (mixer_midi_channel : Option Int) : Qu5State :=
  if st.qu5_connected = false then st
  else
    let midi_channel := mixer_midi_channel.getD st.qu5_midi_channel
    if note < 0 ∨ note > 99 then st
    else recall_scene_by_number sock st (note + 1) (some midi_channel)

/-- Embedding of `Qu5MIDIService.send_softkey_command` (qu5_midi_service.py:281-308):
Note On (velocity 127) then Note Off (velocity 0) at note 0x30+index; both
messages are constructed before either send. -/
def send_softkey_command (sock : Nat → Bool) (st : Qu5State)
    (softkey_number : Int) (mixer_midi_channel : Option Int) : Qu5State :=
  let midi_channel := (mixer_midi_channel.getD st.qu5_midi_channel) - 1
  let midi_note := 0x30 + softkey_number
  match mkNoteOn midi_channel midi_note 127 with
  | none => st
  | some note_on =>
    match mkNoteOff midi_channel midi_note 0 with
    | none => st
    | some note_off =>
      let r1 := send_midi_message sock st note_on
      let r2 := send_midi_message sock r1.2 note_off
      r2.2

/-- Embedding of `Qu5MIDIService.handle_softkey` (qu5_midi_service.py:226-242):
valid soft-key indices are 0..7. -/
def Qu5.handle_softkey (sock : Nat → Bool) (st : Qu5State)
    (note _channel : Int) (mixer_midi_channel : Option Int) : Qu5State :=
  if st.qu5_connected = false then st
  else
    let midi_channel := mixer_midi_channel.getD st.qu5_midi_channel
    if note < 0 ∨ note > 7 then st
    else send_softkey_command sock st note (some midi_channel)

/-- The value `self._ping_interval = 3.0` (qu5_midi_service.py:42, dm3_osc_service.py:40). -/
def ping_interval : ℚ := 3

/-- Embedding of `Qu5MIDIService.ping_host` (qu5_midi_service.py:130-154), identical in
`DM3OSCService.ping_host` (dm3_osc_service.py:96-120).  `now` is
`time.time()`, `probe` the outcome of the `subprocess.run` ping if issued.
Result: (returned bool, new `_last_ping_time`, whether a fresh probe ran).
Within `_ping_interval` of the last cache update the function returns `True`
without probing; `_last_ping_time` is updated only on a successful probe. -/
def ping_host (last_ping_time : ℚ) (now : ℚ) (probe : Bool) : Bool × ℚ × Bool :=
  if now - last_ping_time < ping_interval then (true, last_ping_time, false)
  else if probe then (true, now, true)
  else (false, last_ping_time, true)

/-! ## DM3OSCService (src/model/dm3_osc_service.py) -/

/-- An OSC argument (python-osc values used here: strings and ints). -/
inductive OscArg : Type
  | str (s : String)
  | int (n : Int)
  deriving DecidableEq, Repr

/-- An OSC message as handed to `SimpleUDPClient.send_message`. -/
structure OscMsg : Type where
  address : String
  args : List OscArg
  deriving DecidableEq, Repr

/-- Mutable state of a `DM3OSCService` instance relevant to sending.
`sentOsc` is the wire log of transmitted OSC messages in order;
`sendCount` counts UDP send attempts (indexing the socket oracle). -/
structure DM3State : Type where
  dm3_connected : Bool
  has_client : Bool           -- `self.dm3_client is not None`
  sentOsc : List OscMsg
  sendCount : Nat
  deriving DecidableEq, Repr

/-- Embedding of `DM3OSCService.send_osc_message` (dm3_osc_service.py:179-194). -/
def send_osc_message (sock : Nat → Bool) (st : DM3State) (msg : OscMsg) :
    Bool × DM3State :=
  if st.dm3_connected = false ∨ st.has_client = false then (false, st)
  else if sock st.sendCount then
    (true, { st with sentOsc := st.sentOsc ++ [msg], sendCount := st.sendCount + 1 })
  else
    (false, { st with dm3_connected := false, sendCount := st.sendCount + 1 })

/-- OSC address used by `mute_channel`/`unmute_channel`
(dm3_osc_service.py:224,235). -/
def dm3MuteAddress (channel_num : Int) : String :=
  "/yosc:req/set/MIXER:Current/InCh/Fader/On/" ++ toString channel_num ++ "/1"

/-- Embedding of `DM3OSCService.mute_channel` (dm3_osc_service.py:220-229): payload 0. -/
def mute_channel (sock : Nat → Bool) (st : DM3State) (channel_num : Int) : DM3State :=
  (send_osc_message sock st ⟨dm3MuteAddress channel_num, [.int 0]⟩).2

/-- Embedding of `DM3OSCService.unmute_channel` (dm3_osc_service.py:231-240): payload 1. -/
def unmute_channel (sock : Nat → Bool) (st : DM3State) (channel_num : Int) : DM3State :=
  (send_osc_message sock st ⟨dm3MuteAddress channel_num, [.int 1]⟩).2

/-- Embedding of `DM3OSCService.handle_mute` (dm3_osc_service.py:196-209). -/
def DM3.handle_mute (sock : Nat → Bool) (st : DM3State)
    (note velocity _channel : Int) : DM3State :=
  if st.dm3_connected = false then st
  else
    let channel_num := note + 1
    if velocity ≥ 1 then mute_channel sock st channel_num
    else unmute_channel sock st channel_num

/-- Embedding of `DM3OSCService.recall_scene_by_number` (dm3_osc_service.py:242-259). -/
def DM3.recall_scene_by_number (sock : Nat → Bool) (st : DM3State)
    (scene_number : Int) : DM3State :=
  let scene_index := scene_number - 1
  if scene_index < 0 ∨ scene_index > 99 then st
  else
    (send_osc_message sock st
      ⟨"/yosc:req/ssrecall_ex", [.str "scene_a", .int scene_index]⟩).2

/-- Embedding of `DM3OSCService.handle_scene` (dm3_osc_service.py:211-218). -/
def DM3.handle_scene (sock : Nat → Bool) (st : DM3State)
    (note _channel : Int) : DM3State :=
  if st.dm3_connected = false then st
  else DM3.recall_scene_by_number sock st (note + 1)

/-! ## Connection health monitor (dm3_osc_service.py:143-177) -/

/-- The `max_failures` local of `DM3OSCService.connection_monitor`
(dm3_osc_service.py:146). -/
def max_failures : Nat := 3

/-- The loop-carried state of `connection_monitor`: the shared
`dm3_connected` flag and the local `consecutive_failures` counter. -/
structure MonitorState : Type where
  connected : Bool
  failures : Nat
  deriving DecidableEq, Repr

/-- The five-valued connection state of the spec's data model, derived from
the monitor's variables: a connected service with no outstanding failures is
`Connected`, with some failures below the threshold `Unstable`, and once the
flag has been dropped by the monitor `Failed`. -/
inductive ConnectionState : Type
  | Disconnected | Connecting | Connected | Unstable | Failed
  deriving DecidableEq, Repr

/-- Abstraction from the monitor's concrete variables to `ConnectionState`. -/
def connState (s : MonitorState) : ConnectionState :=
  if s.connected then (if s.failures = 0 then .Connected else .Unstable)
  else .Failed

/-- One iteration of the `while` loop of `connection_monitor`
(dm3_osc_service.py:148-177) on the outcome of one probe.  When the flag is
already down the loop has exited (`break`), so the state is unchanged. -/
def monitor_step (s : MonitorState) (ping_success : Bool) : MonitorState :=
  if s.connected = false then s
  else if ping_success then { s with failures := 0 }
  else if s.failures + 1 ≥ max_failures then
    { connected := false, failures := s.failures + 1 }
  else { s with failures := s.failures + 1 }

/-- Run of the monitor over a list of probe outcomes. -/
def monitor_run (s : MonitorState) (ps : List Bool) : MonitorState :=
  ps.foldl monitor_step s

/-! ## Message queue (src/model/midi_backend.py) -/

/-- The field `MidiBackend._message_queue` is constructed as `Queue()`
(midi_backend.py:45); Python's default `maxsize` is 0, meaning an infinite
queue. -/
def messageQueueMaxsize : Nat := 0

/-- A `queue.Queue` value: `maxsize` and the items in FIFO order. -/
structure MsgQueue (α : Type) : Type where
  maxsize : Nat
  items : List α
  deriving DecidableEq, Repr

/-- Semantics of `Queue.full()`: full iff a positive `maxsize` is reached. -/
def MsgQueue.isFull {α : Type} (q : MsgQueue α) : Bool :=
  decide (0 < q.maxsize ∧ q.maxsize ≤ q.items.length)

/-- Embedding of `Queue.put_nowait(item)`: on a full queue it raises `queue.Full`
immediately (caught in `_virtual_midi_callback`, which logs a warning and
skips the message — modelled by the `true` dropped-flag); otherwise the item
is appended.  It never blocks. -/
def MsgQueue.put_nowait {α : Type} (q : MsgQueue α) (a : α) : MsgQueue α × Bool :=
  if q.isFull then (q, true)
  else ({ q with items := q.items ++ [a] }, false)

/-- Embedding of `MidiBackend._virtual_midi_callback` (midi_backend.py:197-215), queue
part: a non-blocking enqueue whose `queue.Full`/other exception is caught,
warned about and the message skipped. -/
def virtual_midi_callback {α : Type} (q : MsgQueue α) (msg : α) : MsgQueue α × Bool :=
  q.put_nowait msg

/-- Embedding of `Queue.get_nowait()`: raises `queue.Empty` (modelled `none`) on an empty
queue, else removes and returns the oldest item. -/
def MsgQueue.get_nowait {α : Type} (q : MsgQueue α) :
    Option (α × MsgQueue α) :=
  match q.items with
  | [] => none
  | a :: rest => some (a, { q with items := rest })

/-- The `max_messages` bound of `MidiBackend.process_queued_messages`
(midi_backend.py:257). -/
def max_messages : Nat := 100

/-- The `while processed < max_messages` loop of `process_queued_messages`
(midi_backend.py:260-269): dequeue with `get_nowait`, hand each message to
the handler (`acc` records the handler invocations in order), break on
`Empty`. -/
def drainLoop {α : Type} : Nat → MsgQueue α → List α → List α × MsgQueue α
  | 0, q, acc => (acc, q)
  | fuel + 1, q, acc =>
    match q.get_nowait with
    | none => (acc, q)
    | some (m, q') => drainLoop fuel q' (acc ++ [m])

/-- Embedding of `MidiBackend.process_queued_messages` (midi_backend.py:251-269): drain up
to `max_messages` items, invoking the handler on each in arrival order.
Returns the handled messages in handling order and the remaining queue. -/
def process_queued_messages {α : Type} (q : MsgQueue α) : List α × MsgQueue α :=
  drainLoop max_messages q []

/-- Iterated arrival of MIDI events at `_virtual_midi_callback`: each is
enqueued in turn; the second component records, per event, whether it was
dropped. -/
def enqueueAll {α : Type} (q : MsgQueue α) (msgs : List α) :
    MsgQueue α × List Bool :=
  msgs.foldl
    (fun acc m =>
      let r := virtual_midi_callback acc.1 m
      (r.1, acc.2 ++ [r.2]))
    (q, [])

/-! ## Channel router (src/controller/midi_controller.py:202-246) -/

/-- The mido message types the router distinguishes. -/
inductive InType : Type
  | noteOn | noteOff | other
  deriving DecidableEq, Repr

/-- An incoming message as seen by `_handle_midi_message`. -/
structure InMsg : Type where
  type : InType
  channel : Int
  note : Int
  velocity : Int
  deriving DecidableEq, Repr

/-- Embedding of `MidiController._handle_midi_message` (midi_controller.py:202-246) for
mixer = "Qu-5/6/7": channel 0 → soft key (NoteOn, velocity > 0 only),
channel 1 → scene (NoteOn, velocity > 0 only), channel 2 → mute with
`effective_velocity = velocity if note_on else 0`. -/
def handle_midi_message_qu5 (sock : Nat → Bool) (st : Qu5State)
    (msg : InMsg) (mixer_midi_channel : Int) : Qu5State :=
  if msg.type = InType.other then st
  else if msg.channel = 0 then
    if msg.type = InType.noteOn ∧ msg.velocity > 0 then
      Qu5.handle_softkey sock st msg.note msg.channel (some mixer_midi_channel)
    else st
  else if msg.channel = 1 then
    if msg.type = InType.noteOn ∧ msg.velocity > 0 then
      Qu5.handle_scene sock st msg.note msg.channel (some mixer_midi_channel)
    else st
  else if msg.channel = 2 then
    let effective_velocity := if msg.type = InType.noteOn then msg.velocity else 0
    Qu5.handle_mute sock st msg.note effective_velocity msg.channel
      (some mixer_midi_channel)
  else st

/-! ## Helper lemmas -/

/-- Under a fully successful socket, the NRPN loop transmits every pair of
its sequence, in order, as validated CC messages on the given channel. -/
theorem sendSeq_all_success (sock : Nat → Bool) (mc : Int) :
    ∀ (seq : List (Int × Int)) (st : Qu5State),
      st.qu5_connected = true → st.use_tcp_midi = true →
      0 ≤ mc → mc ≤ 15 →
      (∀ p ∈ seq, 0 ≤ p.1 ∧ p.1 ≤ 127 ∧ 0 ≤ p.2 ∧ p.2 ≤ 127) →
      (∀ k, sock k = true) →
      sendSeq sock mc st seq =
        { st with
          sent := st.sent ++
            seq.map (fun p => MidiMsg.controlChange mc.toNat p.1.toNat p.2.toNat),
          sendCount := st.sendCount + seq.length } := by
  intro seq
  induction seq with
  | nil =>
    intro st _ _ _ _ _ _
    simp [sendSeq]
  | cons p rest ih =>
    intro st h1 h2 hmc0 hmc15 hseq hsock
    obtain ⟨c, v⟩ := p
    obtain ⟨hc0, hc1, hv0, hv1⟩ := hseq (c, v) (by simp)
    rw [sendSeq]
    rw [mkControlChange, if_pos ⟨hmc0, hmc15, hc0, hc1, hv0, hv1⟩]
    simp only [send_midi_message, h1, h2, hsock st.sendCount, Bool.true_eq_false,
      if_false, if_true]
    rw [ih _ rfl rfl hmc0 hmc15 (fun q hq => hseq q (by simp [hq])) hsock]
    simp only [List.map_cons, List.length_cons, List.append_assoc,
      List.singleton_append]
    have : st.sendCount + 1 + rest.length = st.sendCount + (rest.length + 1) := by
      omega
    rw [this]

/-- Emission behaviour of `Qu5.handle_mute` under a fully successful socket:
the NRPN quad on the 0-based wire channel, with data value decided by the
velocity. -/
theorem qu5_mute_emission (sock : Nat → Bool) (st : Qu5State)
    (note velocity channel mc : Int)
    (hconn : st.qu5_connected = true) (htcp : st.use_tcp_midi = true)
    (hnote0 : 0 ≤ note) (hnote15 : note ≤ 15)
    (hmc : 1 ≤ mc ∧ mc ≤ 16) (hsock : ∀ k, sock k = true) :
    Qu5.handle_mute sock st note velocity channel (some mc) =
      { st with
        sent := st.sent ++
          [MidiMsg.controlChange (mc - 1).toNat 99 0,
           MidiMsg.controlChange (mc - 1).toNat 98 note.toNat,
           MidiMsg.controlChange (mc - 1).toNat 6 0,
           MidiMsg.controlChange (mc - 1).toNat 38
             (if 1 ≤ velocity then 1 else 0)],
        sendCount := st.sendCount + 4 } := by
  rw [Qu5.handle_mute]
  rw [if_neg (by simp [hconn]), if_neg (by omega)]
  rw [send_nrpn_mute_sequence]
  simp only [Option.getD_some]
  rw [sendSeq_all_success sock (mc - 1) _ st hconn htcp (by omega) (by omega)
    (by
      intro p hp
      simp only [List.mem_cons, List.not_mem_nil, or_false] at hp
      rcases hp with h | h | h | h <;> subst h
      · exact ⟨by decide, by decide, by decide, by decide⟩
      · exact ⟨(by omega : (0:Int) ≤ 98), (by omega : (98:Int) ≤ 127),
          (by omega : (0:Int) ≤ note + 1 - 1), (by omega : note + 1 - 1 ≤ 127)⟩
      · exact ⟨by decide, by decide, by decide, by decide⟩
      · exact ⟨(by omega : (0:Int) ≤ 38), (by omega : (38:Int) ≤ 127),
          (by split <;> omega : (0:Int) ≤ if velocity ≥ 1 then 1 else 0),
          (by split <;> omega : (if velocity ≥ 1 then (1:Int) else 0) ≤ 127)⟩)
    hsock]
  simp only [List.map_cons, List.map_nil, List.length_cons, List.length_nil]
  congr 1
  · have h1 : note + 1 - 1 = note := by omega
    rw [h1]
    have h2 : ((if velocity ≥ 1 then (1 : Int) else 0)).toNat =
        (if 1 ≤ velocity then 1 else 0) := by
      split <;> simp
    simp [h2, ge_iff_le]

/-- C1.  For every mute intent arriving as a Note On with velocity > 0 on the
mute channel, with note index in 0..15, the Qu-family NRPN adapter emits
exactly four Control Change messages in the fixed order CC99 = 0 (parameter
group MSB), CC98 = note (0-based channel index), CC6 = 0, CC38 = 1 (mute;
CC38 = 0 for the unmute case, velocity 0), all on the configured MIDI channel
(0-based on the wire), and nothing else. -/
theorem claim_C1_nrpn_mute_quad (sock : Nat → Bool) (st : Qu5State)
    (note velocity channel mc : Int)
    (hconn : st.qu5_connected = true) (htcp : st.use_tcp_midi = true)
    (hnote0 : 0 ≤ note) (hnote15 : note ≤ 15)
    (hmc : 1 ≤ mc ∧ mc ≤ 16) (hsock : ∀ k, sock k = true) :
    Qu5.handle_mute sock st note velocity channel (some mc) =
      { st with
        sent := st.sent ++
          [MidiMsg.controlChange (mc - 1).toNat 99 0,
           MidiMsg.controlChange (mc - 1).toNat 98 note.toNat,
           MidiMsg.controlChange (mc - 1).toNat 6 0,
           MidiMsg.controlChange (mc - 1).toNat 38
             (if 1 ≤ velocity then 1 else 0)],
        sendCount := st.sendCount + 4 } :=
  qu5_mute_emission sock st note velocity channel mc hconn htcp hnote0 hnote15
    hmc hsock

/-- C1 witness: mute of channel index 0 with velocity 100 on configured
channel 1 emits the quad CC99=0, CC98=0, CC6=0, CC38=1 on wire channel 0. -/
theorem claim_C1_witness :
    Qu5.handle_mute (fun _ => true) ⟨1, true, true, [], 0⟩ 0 100 2 (some 1) =
      { qu5_midi_channel := 1, use_tcp_midi := true, qu5_connected := true,
        sent := [MidiMsg.controlChange 0 99 0, MidiMsg.controlChange 0 98 0,
                 MidiMsg.controlChange 0 6 0, MidiMsg.controlChange 0 38 1],
        sendCount := 4 } := by
  have h := claim_C1_nrpn_mute_quad (fun _ => true) ⟨1, true, true, [], 0⟩
    0 100 2 1 rfl rfl (by omega) (by omega) ⟨by omega, by omega⟩ (fun _ => rfl)
  simpa using h

/-- C4.  The OSC (DM3) adapter's mute sends, for every note and velocity, one
message to `/yosc:req/set/MIXER:Current/InCh/Fader/On/{note+1}/1` whose
payload is 0 when the intent is muted (velocity ≥ 1) and 1 when unmuted
(velocity 0): inverted polarity versus the MIDI-side mute semantic. -/
theorem claim_C4_osc_mute_polarity (sock : Nat → Bool) (st : DM3State)
    (note velocity channel : Int)
    (hconn : st.dm3_connected = true) (hcli : st.has_client = true)
    (hsock : ∀ k, sock k = true) :
    DM3.handle_mute sock st note velocity channel =
      { st with
        sentOsc := st.sentOsc ++
          [⟨dm3MuteAddress (note + 1), [OscArg.int (if 1 ≤ velocity then 0 else 1)]⟩],
        sendCount := st.sendCount + 1 } := by
  rw [DM3.handle_mute, if_neg (by simp [hconn])]
  by_cases hv : velocity ≥ 1
  · rw [if_pos hv, mute_channel, send_osc_message,
      if_neg (by simp [hconn, hcli]), if_pos (hsock st.sendCount)]
    simp [ge_iff_le] at hv ⊢
    simp [if_pos hv]
  · rw [if_neg hv, unmute_channel, send_osc_message,
      if_neg (by simp [hconn, hcli]), if_pos (hsock st.sendCount)]
    simp [ge_iff_le] at hv ⊢
    simp [if_neg (by omega : ¬ (1 : Int) ≤ velocity)]

/-- C4 witness: muting note 0 (channel 1) sends payload 0; velocity 0 sends
payload 1, to the same address. -/
theorem claim_C4_witness :
    DM3.handle_mute (fun _ => true) ⟨true, true, [], 0⟩ 0 100 2 =
      { dm3_connected := true, has_client := true,
        sentOsc := [⟨"/yosc:req/set/MIXER:Current/InCh/Fader/On/1/1", [OscArg.int 0]⟩],
        sendCount := 1 } ∧
    DM3.handle_mute (fun _ => true) ⟨true, true, [], 0⟩ 0 0 2 =
      { dm3_connected := true, has_client := true,
        sentOsc := [⟨"/yosc:req/set/MIXER:Current/InCh/Fader/On/1/1", [OscArg.int 1]⟩],
        sendCount := 1 } := by
  constructor
  · have h := claim_C4_osc_mute_polarity (fun _ => true) ⟨true, true, [], 0⟩
      0 100 2 rfl rfl (fun _ => rfl)
    simpa [dm3MuteAddress] using h
  · have h := claim_C4_osc_mute_polarity (fun _ => true) ⟨true, true, [], 0⟩
      0 0 2 rfl rfl (fun _ => rfl)
    simpa [dm3MuteAddress] using h

/-- C10.  Every intent handler on a disconnected service (connected flag
false) is a no-op: it sends nothing and leaves every field of the service
state unchanged. -/
theorem claim_C10_disconnected_noop (sock : Nat → Bool)
    (st : Qu5State) (dst : DM3State) (note velocity channel mc : Int)
    (h1 : st.qu5_connected = false) (h2 : dst.dm3_connected = false) :
    Qu5.handle_mute sock st note velocity channel (some mc) = st ∧
    Qu5.handle_scene sock st note channel (some mc) = st ∧
    Qu5.handle_softkey sock st note channel (some mc) = st ∧
    DM3.handle_mute sock dst note velocity channel = dst ∧
    DM3.handle_scene sock dst note channel = dst := by
  refine ⟨?_, ?_, ?_, ?_, ?_⟩
  · rw [Qu5.handle_mute, if_pos h1]
  · rw [Qu5.handle_scene, if_pos h1]
  · rw [Qu5.handle_softkey, if_pos h1]
  · rw [DM3.handle_mute, if_pos h2]
  · rw [DM3.handle_scene, if_pos h2]

/-- C10 witness: concrete disconnected states are left untouched by all five
handlers. -/
theorem claim_C10_witness :
    Qu5.handle_mute (fun _ => true) ⟨1, true, false, [], 0⟩ 3 100 2 (some 1) =
      ⟨1, true, false, [], 0⟩ ∧
    DM3.handle_scene (fun _ => true) ⟨false, true, [], 0⟩ 3 2 =
      ⟨false, true, [], 0⟩ := by
  have h := claim_C10_disconnected_noop (fun _ => true)
    ⟨1, true, false, [], 0⟩ ⟨false, true, [], 0⟩ 3 100 2 1 rfl rfl
  exact ⟨h.1, h.2.2.2.2⟩

/-- Modelled from the spec's words (§4.4, §8), for comparison only: the
message sequence the claim says scene recall emits — Bank-Select MSB (CC#0)
= 0, Bank-Select LSB (CC#32) = 0, then Program Change `sceneNumber - 1`. -/
def spec_scene_recall_messages (mc sceneNumber : Int) : List MidiMsg :=
  [MidiMsg.controlChange (mc - 1).toNat 0 0,
   MidiMsg.controlChange (mc - 1).toNat 32 0,
   MidiMsg.programChange (mc - 1).toNat (sceneNumber - 1).toNat]

/-- C2 counterexample.  At sceneNumber 1 (note 0) the code emits a single
Program Change and no Bank-Select pair, differing from the claimed
3-message sequence; and at sceneNumber 101 (note 100), inside the claim's
valid range 1..128, the code emits nothing at all. -/
theorem claim_C2_counterexample :
    (Qu5.handle_scene (fun _ => true) ⟨1, true, true, [], 0⟩ 0 1 (some 1)).sent =
      [MidiMsg.programChange 0 0] ∧
    (Qu5.handle_scene (fun _ => true) ⟨1, true, true, [], 0⟩ 0 1 (some 1)).sent ≠
      spec_scene_recall_messages 1 1 ∧
    (Qu5.handle_scene (fun _ => true) ⟨1, true, true, [], 0⟩ 100 1 (some 1)).sent =
      [] := by
  refine ⟨?_, ?_, ?_⟩ <;> decide

/-- C2 (amended).  For every note in 0..99 (sceneNumber = note + 1 in
1..100), the Qu-family scene recall emits exactly one Program Change with
value sceneNumber − 1 on the configured MIDI channel (0-based on the wire)
and no Bank Select; for note outside 0..99 no message at all is emitted and
the validation failure is reported before any byte is sent. -/
theorem claim_C2_amended (sock : Nat → Bool) (st : Qu5State)
    (note channel mc : Int)
    (hconn : st.qu5_connected = true) (htcp : st.use_tcp_midi = true)
    (hmc : 1 ≤ mc ∧ mc ≤ 16) (hsock : ∀ k, sock k = true) :
    (0 ≤ note ∧ note ≤ 99 →
      Qu5.handle_scene sock st note channel (some mc) =
        { st with
          sent := st.sent ++ [MidiMsg.programChange (mc - 1).toNat note.toNat],
          sendCount := st.sendCount + 1 }) ∧
    (note < 0 ∨ note > 99 →
      Qu5.handle_scene sock st note channel (some mc) = st) := by
  constructor
  · rintro ⟨h0, h99⟩
    rw [Qu5.handle_scene, if_neg (by simp [hconn]), if_neg (by omega)]
    simp only [Option.getD_some]
    have hmax : max (0:Int) (note + 1 - 1) = note := by
      rw [max_eq_right (by omega : (0:Int) ≤ note + 1 - 1)]
      omega
    rw [recall_scene_by_number]
    simp only [Option.getD_some, hmax]
    rw [mkProgramChange,
      if_pos ⟨by omega, by omega, by omega, by omega⟩]
    simp only [send_midi_message, hconn, htcp, hsock st.sendCount,
      Bool.true_eq_false, if_false, if_true]
  · intro h
    rw [Qu5.handle_scene, if_neg (by simp [hconn]), if_pos (by omega)]

/-- C2 witness for the amended claim: note 4 on configured channel 1 emits
exactly Program Change 4 on wire channel 0; note 100 emits nothing. -/
theorem claim_C2_amended_witness :
    Qu5.handle_scene (fun _ => true) ⟨1, true, true, [], 0⟩ 4 1 (some 1) =
      { qu5_midi_channel := 1, use_tcp_midi := true, qu5_connected := true,
        sent := [MidiMsg.programChange 0 4], sendCount := 1 } ∧
    Qu5.handle_scene (fun _ => true) ⟨1, true, true, [], 0⟩ 100 1 (some 1) =
      ⟨1, true, true, [], 0⟩ := by
  constructor
  · have h := (claim_C2_amended (fun _ => true) ⟨1, true, true, [], 0⟩
      4 1 1 rfl rfl ⟨by omega, by omega⟩ (fun _ => rfl)).1 ⟨by omega, by omega⟩
    simpa using h
  · have h := (claim_C2_amended (fun _ => true) ⟨1, true, true, [], 0⟩
      100 1 1 rfl rfl ⟨by omega, by omega⟩ (fun _ => rfl)).2 (by omega)
    simpa using h

/-- C3 counterexample.  Key index 8 lies in the claim's range 0..11, yet the
code validates soft keys against 0..7 and emits nothing for it. -/
theorem claim_C3_counterexample :
    Qu5.handle_softkey (fun _ => true) ⟨1, true, true, [], 0⟩ 8 0 (some 1) =
      ⟨1, true, true, [], 0⟩ := by
  decide

/-- C3 (amended).  For every soft-key index in 0..7 (the Qu-5's 8 soft keys),
the adapter emits a Note On with velocity 127 at MIDI note 0x30 + keyIndex,
followed by a Note Off with velocity 0 at the same note — Note On always
first, both present on success; indices outside 0..7 emit nothing. -/
theorem claim_C3_amended (sock : Nat → Bool) (st : Qu5State)
    (note channel mc : Int)
    (hconn : st.qu5_connected = true) (htcp : st.use_tcp_midi = true)
    (hmc : 1 ≤ mc ∧ mc ≤ 16) (hsock : ∀ k, sock k = true) :
    (0 ≤ note ∧ note ≤ 7 →
      Qu5.handle_softkey sock st note channel (some mc) =
        { st with
          sent := st.sent ++
            [MidiMsg.noteOn (mc - 1).toNat (48 + note).toNat 127,
             MidiMsg.noteOff (mc - 1).toNat (48 + note).toNat 0],
          sendCount := st.sendCount + 2 }) ∧
    (note < 0 ∨ note > 7 →
      Qu5.handle_softkey sock st note channel (some mc) = st) := by
  constructor
  · rintro ⟨h0, h7⟩
    rw [Qu5.handle_softkey, if_neg (by simp [hconn]), if_neg (by omega)]
    simp only [Option.getD_some]
    rw [send_softkey_command]
    simp only [Option.getD_some]
    rw [mkNoteOn, if_pos ⟨by omega, by omega, by omega, by omega, by omega, by omega⟩]
    rw [mkNoteOff, if_pos ⟨by omega, by omega, by omega, by omega, by omega, by omega⟩]
    simp only [send_midi_message, hconn, htcp, hsock, Bool.true_eq_false,
      if_false, if_true]
    simp [List.append_assoc]
  · intro h
    rw [Qu5.handle_softkey, if_neg (by simp [hconn]), if_pos (by omega)]

/-- C3 witness for the amended claim: key 3 on configured channel 1 emits
Note On 51 velocity 127 then Note Off 51 velocity 0; key 8 emits nothing. -/
theorem claim_C3_amended_witness :
    Qu5.handle_softkey (fun _ => true) ⟨1, true, true, [], 0⟩ 3 0 (some 1) =
      { qu5_midi_channel := 1, use_tcp_midi := true, qu5_connected := true,
        sent := [MidiMsg.noteOn 0 51 127, MidiMsg.noteOff 0 51 0],
        sendCount := 2 } ∧
    Qu5.handle_softkey (fun _ => true) ⟨1, true, true, [], 0⟩ 8 0 (some 1) =
      ⟨1, true, true, [], 0⟩ := by
  constructor
  · have h := (claim_C3_amended (fun _ => true) ⟨1, true, true, [], 0⟩
      3 0 1 rfl rfl ⟨by omega, by omega⟩ (fun _ => rfl)).1 ⟨by omega, by omega⟩
    simpa using h
  · have h := (claim_C3_amended (fun _ => true) ⟨1, true, true, [], 0⟩
      8 0 1 rfl rfl ⟨by omega, by omega⟩ (fun _ => rfl)).2 (by omega)
    simpa using h

/-- C5.  Every Note Off received on the mute channel (channel 2), whatever
its velocity, is normalized by the router to effective velocity 0, so the
mute value transmitted to the mixer (CC38 of the NRPN quad) is 0: the mute
is released. -/
theorem claim_C5_noteoff_unmutes (sock : Nat → Bool) (st : Qu5State)
    (note velocity mc : Int)
    (hconn : st.qu5_connected = true) (htcp : st.use_tcp_midi = true)
    (hnote : 0 ≤ note ∧ note ≤ 15) (hmc : 1 ≤ mc ∧ mc ≤ 16)
    (hsock : ∀ k, sock k = true) :
    handle_midi_message_qu5 sock st ⟨InType.noteOff, 2, note, velocity⟩ mc =
      { st with
        sent := st.sent ++
          [MidiMsg.controlChange (mc - 1).toNat 99 0,
           MidiMsg.controlChange (mc - 1).toNat 98 note.toNat,
           MidiMsg.controlChange (mc - 1).toNat 6 0,
           MidiMsg.controlChange (mc - 1).toNat 38 0],
        sendCount := st.sendCount + 4 } := by
  have h := qu5_mute_emission sock st note 0 2 mc hconn htcp hnote.1 hnote.2
    hmc hsock
  rw [handle_midi_message_qu5]
  simp only [reduceCtorEq, if_false, reduceIte]
  simpa using h

/-- C5 witness: a Note Off at note 3, velocity 64, on channel 2 yields the
NRPN quad ending in CC38 = 0. -/
theorem claim_C5_witness :
    handle_midi_message_qu5 (fun _ => true) ⟨1, true, true, [], 0⟩
        ⟨InType.noteOff, 2, 3, 64⟩ 1 =
      { qu5_midi_channel := 1, use_tcp_midi := true, qu5_connected := true,
        sent := [MidiMsg.controlChange 0 99 0, MidiMsg.controlChange 0 98 3,
                 MidiMsg.controlChange 0 6 0, MidiMsg.controlChange 0 38 0],
        sendCount := 4 } := by
  have h := claim_C5_noteoff_unmutes (fun _ => true) ⟨1, true, true, [], 0⟩
    3 64 1 rfl rfl ⟨by omega, by omega⟩ ⟨by omega, by omega⟩ (fun _ => rfl)
  simpa using h

/-- C8.  A failed socket send while connected returns False, flips
`qu5_connected` to false (the reported-error path), and if it happens at the
head of an NRPN sequence the remaining messages are aborted: whatever
`rest` is, nothing further is transmitted (`sent` unchanged) and no retry
occurs (exactly one more send attempt is counted). -/
theorem claim_C8_send_failure_flips_and_aborts (sock : Nat → Bool)
    (st : Qu5State) (msg : MidiMsg) (mc control value : Int)
    (rest : List (Int × Int))
    (hconn : st.qu5_connected = true) (htcp : st.use_tcp_midi = true)
    (hfail : sock st.sendCount = false)
    (hvalid : 0 ≤ mc ∧ mc ≤ 15 ∧ 0 ≤ control ∧ control ≤ 127 ∧
      0 ≤ value ∧ value ≤ 127) :
    send_midi_message sock st msg =
      (false, { st with qu5_connected := false, sendCount := st.sendCount + 1 }) ∧
    sendSeq sock mc st ((control, value) :: rest) =
      { st with qu5_connected := false, sendCount := st.sendCount + 1 } := by
  have hsend : send_midi_message sock st msg =
      (false, { st with qu5_connected := false, sendCount := st.sendCount + 1 }) := by
    rw [send_midi_message]
    rw [if_neg (by simp [hconn]), if_pos htcp, if_neg (by simp [hfail])]
  refine ⟨hsend, ?_⟩
  rw [sendSeq]
  rw [mkControlChange, if_pos hvalid]
  simp [send_midi_message, hconn, htcp, hfail]

/-- C8 witness: with the socket failing on the first attempt, a 4-element
NRPN sequence transmits nothing, the connected flag drops, and exactly one
send attempt is made. -/
theorem claim_C8_witness :
    send_midi_message (fun _ => false) ⟨1, true, true, [], 0⟩
        (MidiMsg.controlChange 0 99 0) =
      (false, ⟨1, true, false, [], 1⟩) ∧
    sendSeq (fun _ => false) 0 ⟨1, true, true, [], 0⟩
        [(99, 0), (98, 0), (6, 0), (38, 1)] =
      ⟨1, true, false, [], 1⟩ := by
  have h := claim_C8_send_failure_flips_and_aborts (fun _ => false)
    ⟨1, true, true, [], 0⟩ (MidiMsg.controlChange 0 99 0) 0 99 0
    [(98, 0), (6, 0), (38, 1)] rfl rfl rfl
    ⟨by omega, by omega, by omega, by omega, by omega, by omega⟩
  exact ⟨h.1, h.2⟩

/-- Draining with `get_nowait` returns the oldest `fuel` items in FIFO order
and leaves the rest. -/
theorem drainLoop_take_drop {α : Type} :
    ∀ (fuel : Nat) (q : MsgQueue α) (acc : List α),
      drainLoop fuel q acc =
        (acc ++ q.items.take fuel, { q with items := q.items.drop fuel }) := by
  intro fuel
  induction fuel with
  | zero => intro q acc; simp [drainLoop]
  | succ n ih =>
    rintro ⟨ms, items⟩ acc
    cases items with
    | nil => simp [drainLoop, MsgQueue.get_nowait]
    | cons a rest =>
      rw [drainLoop]
      simp only [MsgQueue.get_nowait]
      rw [ih ⟨ms, rest⟩ (acc ++ [a])]
      simp [List.take_succ_cons, List.drop_succ_cons]

/-- Enqueuing any stream of events into a queue with `maxsize = 0` (the
`Queue()` default) appends them all in order and never drops. -/
theorem enqueueAll_unbounded {α : Type} :
    ∀ (msgs : List α) (q : MsgQueue α) (flags : List Bool), q.maxsize = 0 →
      msgs.foldl
        (fun acc m =>
          let r := virtual_midi_callback acc.1 m
          (r.1, acc.2 ++ [r.2]))
        (q, flags) =
        (⟨0, q.items ++ msgs⟩, flags ++ List.replicate msgs.length false) := by
  intro msgs
  induction msgs with
  | nil =>
    rintro ⟨ms, items⟩ flags h
    subst h
    simp
  | cons m rest ih =>
    rintro ⟨ms, items⟩ flags h
    subst h
    rw [List.foldl_cons]
    have hcb : virtual_midi_callback (⟨0, items⟩ : MsgQueue α) m =
        (⟨0, items ++ [m]⟩, false) := by
      rw [virtual_midi_callback, MsgQueue.put_nowait,
        if_neg (by simp [MsgQueue.isFull])]
    simp only [hcb]
    rw [ih ⟨0, items ++ [m]⟩ (flags ++ [false]) rfl]
    simp [List.replicate_succ, List.append_assoc]

/-- C6 counterexample.  `MidiBackend._message_queue` is built as `Queue()`,
i.e. with `maxsize = 0`: the queue is unbounded.  A queue already holding 50
events still accepts the next one without dropping it, and no positive bound
exists at which this queue reports full — contradicting the claimed
"bounded FIFO" whose newest event is dropped when full. -/
theorem claim_C6_counterexample :
    messageQueueMaxsize = 0 ∧
    MsgQueue.put_nowait ⟨messageQueueMaxsize, List.replicate 50 0⟩ (7 : Nat) =
      (⟨0, List.replicate 50 0 ++ [7]⟩, false) ∧
    ¬ ∃ N : Nat, 0 < N ∧
        ∀ q : MsgQueue Nat, q.maxsize = messageQueueMaxsize →
          N ≤ q.items.length → q.isFull = true := by
  refine ⟨rfl, by decide, ?_⟩
  rintro ⟨N, _, h⟩
  have hq := h ⟨messageQueueMaxsize, List.replicate N 0⟩ rfl (by simp)
  simp [MsgQueue.isFull, messageQueueMaxsize] at hq

/-- C6 (amended).  The queue between the MIDI receive callback and the
dispatch loop is an unbounded FIFO; the callback's enqueue uses
`put_nowait`, which never blocks, and on this queue (maxsize 0) never
drops: every arriving event is appended in order with a `false` dropped
flag, and the dispatch loop delivers queued events to the consumer in
enqueue (FIFO) order, up to 100 per tick.  (The code's full-queue branch —
warn and skip the newest event — exists but is unreachable because the
queue is never full.) -/
theorem claim_C6_amended {α : Type} (q : MsgQueue α) (msgs : List α)
    (h : q.maxsize = messageQueueMaxsize) :
    enqueueAll q msgs =
      (⟨0, q.items ++ msgs⟩, List.replicate msgs.length false) ∧
    process_queued_messages q =
      (q.items.take max_messages, { q with items := q.items.drop max_messages }) := by
  constructor
  · rw [enqueueAll]
    exact enqueueAll_unbounded msgs q [] (by simpa [messageQueueMaxsize] using h)
  · rw [process_queued_messages]
    simpa using drainLoop_take_drop max_messages q []

/-- C6 witness: three events enqueue into an empty unbounded queue in order
with no drops, and draining delivers them FIFO. -/
theorem claim_C6_amended_witness :
    enqueueAll (⟨0, []⟩ : MsgQueue Nat) [1, 2, 3] =
      (⟨0, [1, 2, 3]⟩, [false, false, false]) ∧
    process_queued_messages (⟨0, [1, 2, 3]⟩ : MsgQueue Nat) =
      ([1, 2, 3], ⟨0, []⟩) := by
  have h1 := claim_C6_amended (⟨0, []⟩ : MsgQueue Nat) [1, 2, 3] rfl
  have h2 := claim_C6_amended (⟨0, [1, 2, 3]⟩ : MsgQueue Nat) [] rfl
  refine ⟨by simpa using h1.1, by simpa using h2.2⟩

/-! ## Monitor lemmas (for C7) -/

/-- Holds when `ps` begins with `n` consecutive failed probes. -/
def startsFalse (n : Nat) (ps : List Bool) : Prop :=
  ∃ t, ps = List.replicate n false ++ t

/-- Holds when `ps` contains somewhere a run of `max_failures` consecutive failed
probes. -/
def hasFailWindow (ps : List Bool) : Prop :=
  ∃ l t, ps = l ++ List.replicate max_failures false ++ t

theorem startsFalse_succ_cons (n : Nat) (p : Bool) (ps : List Bool) :
    startsFalse (n + 1) (p :: ps) ↔ p = false ∧ startsFalse n ps := by
  constructor
  · rintro ⟨t, ht⟩
    rw [List.replicate_succ, List.cons_append] at ht
    injection ht with h1 h2
    exact ⟨h1, t, h2⟩
  · rintro ⟨hp, t, ht⟩
    subst hp
    subst ht
    exact ⟨t, by rw [List.replicate_succ, List.cons_append]⟩

theorem startsFalse_succ_nil (n : Nat) : ¬ startsFalse (n + 1) [] := by
  rintro ⟨t, ht⟩
  rw [List.replicate_succ, List.cons_append] at ht
  exact List.noConfusion ht

theorem startsFalse_mono {m n : Nat} (h : m ≤ n) {ps : List Bool} :
    startsFalse n ps → startsFalse m ps := by
  rintro ⟨t, rfl⟩
  refine ⟨List.replicate (n - m) false ++ t, ?_⟩
  rw [← List.append_assoc, ← List.replicate_add]
  have : m + (n - m) = n := by omega
  rw [this]

theorem startsFalse_window {ps : List Bool} :
    startsFalse max_failures ps → hasFailWindow ps := by
  rintro ⟨t, rfl⟩
  exact ⟨[], t, by simp⟩

theorem hasFailWindow_nil : ¬ hasFailWindow [] := by
  rintro ⟨l, t, ht⟩
  have := congrArg List.length ht
  simp [max_failures] at this
  omega

theorem hasFailWindow_cons (p : Bool) (ps : List Bool) :
    hasFailWindow (p :: ps) ↔
      startsFalse max_failures (p :: ps) ∨ hasFailWindow ps := by
  constructor
  · rintro ⟨l, t, ht⟩
    cases l with
    | nil => exact Or.inl ⟨t, by simpa using ht⟩
    | cons b l' =>
      rw [List.cons_append, List.cons_append] at ht
      injection ht with h1 h2
      exact Or.inr ⟨l', t, by rw [h2, List.append_assoc]⟩
  · rintro (⟨t, ht⟩ | ⟨l, t, ht⟩)
    · exact ⟨[], t, by simpa using ht⟩
    · exact ⟨p :: l, t, by rw [ht]; simp⟩

/-- Once the monitor has dropped the connected flag, the loop has exited:
no further probe changes the state. -/
theorem monitor_run_disconnected (ps : List Bool) :
    ∀ s : MonitorState, s.connected = false → monitor_run s ps = s := by
  induction ps with
  | nil => intro s _; rfl
  | cons p rest ih =>
    intro s h
    rw [monitor_run, List.foldl_cons]
    have hstep : monitor_step s p = s := by rw [monitor_step, if_pos h]
    rw [hstep]
    exact ih s h

/-- Characterization of when the monitor trips, starting from a connected
state with `k` consecutive failures already counted (`k < max_failures`):
the flag ends up false iff the probes begin with `max_failures - k` failures
or contain a full window of `max_failures` consecutive failures. -/
theorem monitor_trips_iff :
    ∀ (ps : List Bool) (k : Nat), k < max_failures →
      ((monitor_run ⟨true, k⟩ ps).connected = false ↔
        (startsFalse (max_failures - k) ps ∨ hasFailWindow ps)) := by
  intro ps
  induction ps with
  | nil =>
    intro k hk
    constructor
    · intro h
      exact absurd h (by simp [monitor_run])
    · rintro (hs | hw)
      · have hn : max_failures - k = (max_failures - k - 1) + 1 := by
          simp only [max_failures] at hk ⊢
          omega
        rw [hn] at hs
        exact absurd hs (startsFalse_succ_nil _)
      · exact absurd hw hasFailWindow_nil
  | cons p rest ih =>
    intro k hk
    rw [monitor_run, List.foldl_cons]
    cases p with
    | true =>
      have hstep : monitor_step ⟨true, k⟩ true = ⟨true, 0⟩ := by
        rw [monitor_step]
        simp
      rw [hstep]
      have h0 := ih 0 (by simp [max_failures])
      constructor
      · intro h
        rcases h0.mp h with hs | hw
        · refine Or.inr ((hasFailWindow_cons true rest).mpr (Or.inr ?_))
          exact startsFalse_window (by simpa using hs)
        · exact Or.inr ((hasFailWindow_cons true rest).mpr (Or.inr hw))
      · rintro (hs | hw)
        · have hn : max_failures - k = (max_failures - k - 1) + 1 := by
            simp only [max_failures] at hk ⊢
            omega
          rw [hn] at hs
          rcases (startsFalse_succ_cons _ _ _).mp hs with ⟨hcontra, -⟩
          exact absurd hcontra (by simp)
        · rcases (hasFailWindow_cons true rest).mp hw with hs | hw'
          · rcases (startsFalse_succ_cons 2 true rest).mp hs with ⟨hcontra, -⟩
            exact absurd hcontra (by simp)
          · exact h0.mpr (Or.inr hw')
    | false =>
      by_cases hk2 : max_failures ≤ k + 1
      · have hstep : monitor_step ⟨true, k⟩ false = ⟨false, k + 1⟩ := by
          rw [monitor_step]
          simp [ge_iff_le, hk2]
        rw [hstep]
        rw [show List.foldl monitor_step ⟨false, k + 1⟩ rest =
            monitor_run ⟨false, k + 1⟩ rest from rfl,
          monitor_run_disconnected rest ⟨false, k + 1⟩ rfl]
        constructor
        · intro _
          left
          have hn : max_failures - k = 1 := by
            simp only [max_failures] at hk hk2 ⊢
            omega
          rw [hn]
          exact ⟨rest, by simp [List.replicate_succ]⟩
        · intro _
          rfl
      · have hstep : monitor_step ⟨true, k⟩ false = ⟨true, k + 1⟩ := by
          rw [monitor_step]
          simp [ge_iff_le, hk2]
        rw [hstep]
        have h1 := ih (k + 1) (by omega)
        constructor
        · intro h
          rcases h1.mp h with hs | hw
          · left
            have hn : max_failures - k = (max_failures - (k + 1)) + 1 := by
              omega
            rw [hn]
            exact (startsFalse_succ_cons _ _ _).mpr ⟨rfl, hs⟩
          · exact Or.inr ((hasFailWindow_cons false rest).mpr (Or.inr hw))
        · rintro (hs | hw)
          · have hn : max_failures - k = (max_failures - (k + 1)) + 1 := by
              omega
            rw [hn] at hs
            rcases (startsFalse_succ_cons _ _ _).mp hs with ⟨-, hs'⟩
            exact h1.mpr (Or.inl hs')
          · rcases (hasFailWindow_cons false rest).mp hw with hs | hw'
            · rcases (startsFalse_succ_cons 2 false rest).mp hs with ⟨-, hs'⟩
              refine h1.mpr (Or.inl (startsFalse_mono ?_ hs'))
              simp only [max_failures] at hk2 ⊢
              omega
            · exact h1.mpr (Or.inr hw')

/-- C7.  Starting Connected with a clean counter, the monitor's connected
flag drops iff the probe outcomes contain `max_failures` (3) consecutive
failures — never before the count is reached; once down, the loop has
exited, so the Connected→Failed transition happens at most once until a new
connect(); a successful probe resets the consecutive-failure counter and the
derived state is again `Connected`; and along the canonical 3-failure trace
the derived states pass Connected → Unstable → Unstable → Failed. -/
theorem claim_C7_monitor_fails_once (ps : List Bool) :
    ((monitor_run ⟨true, 0⟩ ps).connected = false ↔ hasFailWindow ps) ∧
    (∀ (s : MonitorState) (qs : List Bool), s.connected = false →
      monitor_run s qs = s) ∧
    (∀ s : MonitorState, s.connected = true →
      monitor_step s true = ⟨true, 0⟩ ∧
        connState (monitor_step s true) = ConnectionState.Connected) ∧
    ((List.scanl monitor_step ⟨true, 0⟩
        (List.replicate max_failures false)).map connState =
      [ConnectionState.Connected, ConnectionState.Unstable,
       ConnectionState.Unstable, ConnectionState.Failed]) := by
  refine ⟨?_, ?_, ?_, ?_⟩
  · have h := monitor_trips_iff ps 0 (by simp [max_failures])
    simp only [Nat.sub_zero] at h
    constructor
    · intro hh
      rcases h.mp hh with hs | hw
      · exact startsFalse_window hs
      · exact hw
    · intro hw
      exact h.mpr (Or.inr hw)
  · intro s qs h
    exact monitor_run_disconnected qs s h
  · intro s hs
    have hstep : monitor_step s true = ⟨true, 0⟩ := by
      rw [monitor_step, if_neg (by simp [hs])]
      simp
      exact hs
    refine ⟨hstep, ?_⟩
    rw [hstep]
    rfl
  · decide

/-- C7 witness: three consecutive failed probes trip the monitor; further
probes leave the tripped state untouched; a success from an Unstable state
returns to Connected. -/
theorem claim_C7_witness :
    (monitor_run ⟨true, 0⟩ [false, false, false]).connected = false ∧
    monitor_run ⟨false, 3⟩ [true, true, false] = ⟨false, 3⟩ ∧
    monitor_step ⟨true, 2⟩ true = ⟨true, 0⟩ := by
  have h := claim_C7_monitor_fails_once [false, false, false]
  exact ⟨h.1.mpr ⟨[], [], rfl⟩,
    h.2.1 ⟨false, 3⟩ [true, true, false] rfl,
    (h.2.2.1 ⟨true, 2⟩ rfl).1⟩

/-! ## Ping throttling (C9) -/

/-- C9 counterexample.  With the cache timestamp at 0, a probe at time 10
fails and — because `_last_ping_time` is updated only on success — leaves
the timestamp at 0; the very next call at time 11, only 1 second after that
previous probe, issues a fresh probe (third component `true`) instead of
returning the previous result without probing. -/
theorem claim_C9_counterexample :
    ping_host 0 10 false = (false, 0, true) ∧
    ping_host 0 11 true = (true, 11, true) := by
  constructor <;> norm_num [ping_host, ping_interval]

/-- C9 (amended).  Calls within the 3-second interval of the last
*successful* probe return True — that previous probe's (successful) result —
without issuing a new probe and without touching the cache; once the
interval since the last successful probe has elapsed, a fresh probe is
always issued, its result is returned, and the cache timestamp advances only
if it succeeds (a failed probe leaves the cache unarmed, so the next call
probes again regardless of how recently the failure happened). -/
theorem claim_C9_amended (last now : ℚ) (probe : Bool) :
    (now - last < ping_interval →
      ping_host last now probe = (true, last, false)) ∧
    (ping_interval ≤ now - last →
      ping_host last now probe = (probe, if probe then now else last, true)) := by
  constructor
  · intro h
    rw [ping_host, if_pos h]
  · intro h
    rw [ping_host, if_neg (not_lt.mpr h)]
    cases probe <;> simp

/-- C9 witness: at time 2 (within the interval of a success at time 0) the
cached True is returned with no probe; at time 5 a fresh probe runs and its
failure is returned with the cache unchanged. -/
theorem claim_C9_amended_witness :
    ping_host 0 2 true = (true, 0, false) ∧
    ping_host 0 5 false = (false, 0, true) := by
  constructor
  · exact (claim_C9_amended 0 2 true).1 (by norm_num [ping_interval])
  · have h := (claim_C9_amended 0 5 false).2 (by norm_num [ping_interval])
    simpa using h

end MidiControl
